import Mathlib

/-!
Shallow embedding of the ThaiLawOnline-Chatbot backend (Python), covering:
 - `backend/rag/vortex_client.py` (`_search_json_files`, the local-corpus adapter)
 - `backend/rag/retriever.py` (`retrieve_context`)
 - `backend/rag/prompts.py` (`build_system_prompt`)
 - `backend/wordpress/auth.py` (`validate_api_key`)
 - `backend/wordpress/models.py` (`ChatRequest`, `SourceCitation`)
 - `backend/main.py` (`wordpress_chat`)
 - the rank-aggregation step of `backend/council.py` (that file is not part of the
   available sources; it is modelled from the specification, see below).

Machine reals: Python computes token-overlap scores as floats `overlap / len(query_tokens)`.
Within one search all scores share the same denominator `len(query_tokens)`, and
float division and comparison are monotone and injective on `n / d` for the small
naturals involved, so modelling scores as exact rationals preserves every comparison
the code makes.  Python's `list.sort(key=..., reverse=True)` is a stable sort; a
stable descending sort by score is extensionally the sort by the lexicographic order
(score descending, original position ascending), which is how it is embedded here.
-/

deriving instance DecidableEq for Except

namespace ThaiLaw

/-! ### Tokenization (`re.findall(r"\w+", s.lower())` made into a set)

Python `\w` matches Unicode word characters.  The embedding mirrors it exactly on
the ASCII range (alphanumerics and underscore) and treats every character above
the ASCII range as a word character (Thai letters are word characters in Python);
likewise `str.lower` is mirrored by `String.toLower`.  All properties proved below
are parametric in this character class. -/

def isWordChar (c : Char) : Bool :=
  c.isAlphanum || c == '_' || c.val > 127

/-- Cut a character stream into the maximal runs of word characters, carrying the
(reversed) run in progress; `re.findall` of `\w+` returns exactly these runs. -/
def tokenizeChars : List Char → List Char → List String
  | [], acc => if acc.isEmpty then [] else [String.mk acc.reverse]
  | c :: rest, acc =>
    if isWordChar c then
      tokenizeChars rest (c :: acc)
    else if acc.isEmpty then
      tokenizeChars rest []
    else
      String.mk acc.reverse :: tokenizeChars rest []

/-- `set(re.findall(r"\w+", s.lower()))`.  Lowercasing is done per character,
which agrees with `str.lower` on the ASCII range that `Char.toLower` maps. -/
def tokenSet (s : String) : Finset String :=
  (tokenizeChars (s.toList.map Char.toLower) []).toFinset

/-! ### JSON values as loaded by `json.load` -/

inductive Json where
  | null
  | bool (b : Bool)
  | num (n : Int)
  | str (s : String)
  | arr (elems : List Json)
  | obj (fields : List (String × Json))

/-- Python truthiness of a JSON-decoded value (`not content`). -/
def Json.falsy : Json → Bool
  | .null => true
  | .bool b => !b
  | .num n => n == 0
  | .str s => s == ""
  | .arr xs => xs.isEmpty
  | .obj fs => fs.isEmpty

/-- `dict.get(key, default)` on a decoded JSON object.  `json.load` keeps the last
of duplicate keys, hence the lookup on the reversed field list. -/
def jsonGet (fields : List (String × Json)) (key : String) : Option Json :=
  fields.reverse.lookup key

/-- The only exception class relevant to the embedded paths: Python raises
`AttributeError` when `.get` is called on a non-dict or `.lower` on a non-str. -/
inductive PyErr where
  | attributeError
deriving DecidableEq

/-! ### `_search_json_files` (vortex_client.py lines 110-158) -/

/-- A scored chunk dict `{"content": ..., "source": ..., "score": ...}` as appended
to `scored_chunks`.  `content` is always a `str` on this path; `source` is stored
as the raw JSON value `chunk.get("source", json_file.stem)`. -/
structure ScoredChunk where
  content : String
  source : Json
  score : ℚ

/-- Outcome of `open` + `json.load` for one file: the decoded value, or one of the
two exception classes the source catches (`json.JSONDecodeError`, `OSError`). -/
inductive LoadResult where
  | ok (j : Json)
  | decodeError
  | osError

/-- One file under `VORTEX_JSON_DIR` as seen by the search: its stem and the
outcome of loading it. -/
structure JsonFile where
  stem : String
  load : LoadResult

/-- The body of the `for chunk in chunks` loop (vortex_client.py lines 136-150):
skip falsy content, tokenize string content and score by overlap, raise
`AttributeError` on a non-dict chunk or a truthy non-str content. -/
def processChunk (qT : Finset String) (stem : String) (chunk : Json) :
    Except PyErr (Option ScoredChunk) :=
  match chunk with
  | .obj fields =>
    let content := (jsonGet fields "content").getD (.str "")
    if content.falsy then
      .ok none
    else
      match content with
      | .str s =>
        let contentTokens := tokenSet s
        let overlap := (qT ∩ contentTokens).card
        if overlap > 0 then
          .ok (some ⟨s, (jsonGet fields "source").getD (.str stem),
                     (overlap : ℚ) / (qT.card : ℚ)⟩)
        else
          .ok none
      | _ => .error .attributeError
  | _ => .error .attributeError

/-- `chunks = data if isinstance(data, list) else [data]` -/
def normalizeChunks : Json → List Json
  | .arr xs => xs
  | j => [j]

/-- Score every chunk of one decoded file in order, propagating an uncaught
exception. -/
def processChunks (qT : Finset String) (stem : String) :
    List Json → Except PyErr (List ScoredChunk)
  | [] => .ok []
  | c :: cs => do
    let hd ← processChunk qT stem c
    let tl ← processChunks qT stem cs
    match hd with
    | some sc => .ok (sc :: tl)
    | none => .ok tl

/-- One iteration of the `for json_file in json_dir.glob(...)` loop: a load error
of the caught classes skips the file (`except ...: continue`); a decoded file is
scored chunk by chunk, and an `AttributeError` raised there is not caught. -/
def processFile (qT : Finset String) (f : JsonFile) : Except PyErr (List ScoredChunk) :=
  match f.load with
  | .decodeError => .ok []
  | .osError => .ok []
  | .ok data => processChunks qT f.stem (normalizeChunks data)

/-- `scored_chunks` accumulated over all files in glob order. -/
def collectScored (qT : Finset String) : List JsonFile → Except PyErr (List ScoredChunk)
  | [] => .ok []
  | f :: fs => do
    let cs ← processFile qT f
    let rest ← collectScored qT fs
    .ok (cs ++ rest)

/-- The order in which a stable descending sort by score emits two score-indexed
chunks: strictly larger score first, ties by original position. -/
def chunkLex (a b : Nat × ScoredChunk) : Prop :=
  b.2.score < a.2.score ∨ (a.2.score = b.2.score ∧ a.1 ≤ b.1)

instance : DecidableRel chunkLex := fun a b => by
  unfold chunkLex; infer_instance

instance : IsTotal (Nat × ScoredChunk) chunkLex where
  total a b := by
    rcases lt_trichotomy a.2.score b.2.score with h | h | h
    · exact Or.inr (Or.inl h)
    · rcases Nat.le_total a.1 b.1 with hi | hi
      · exact Or.inl (Or.inr ⟨h, hi⟩)
      · exact Or.inr (Or.inr ⟨h.symm, hi⟩)
    · exact Or.inl (Or.inl h)

instance : IsTrans (Nat × ScoredChunk) chunkLex where
  trans a b c hab hbc := by
    rcases hab with h1 | ⟨h1, i1⟩
    · rcases hbc with h2 | ⟨h2, _⟩
      · exact Or.inl (h2.trans h1)
      · exact Or.inl (h2 ▸ h1)
    · rcases hbc with h2 | ⟨h2, i2⟩
      · exact Or.inl (h1 ▸ h2)
      · exact Or.inr ⟨h1.trans h2, i1.trans i2⟩

/-- `scored_chunks.sort(key=lambda x: x[0], reverse=True)` — Python's stable sort,
embedded as the sort by `chunkLex` over position-tagged chunks. -/
def sortScored (scored : List ScoredChunk) : List (Nat × ScoredChunk) :=
  scored.enum.insertionSort chunkLex

/-- `_search_json_files(query, max_results)` (vortex_client.py lines 110-158).
The files found under `VORTEX_JSON_DIR` are the `files` parameter; a missing
directory returns `[]` exactly as an empty `files` list does. -/
def search_json_files (query : String) (files : List JsonFile) (maxResults : Nat) :
    Except PyErr (List ScoredChunk) :=
  let qT := tokenSet query
  if qT = ∅ then .ok []
  else do
    let scored ← collectScored qT files
    .ok (((sortScored scored).map Prod.snd).take maxResults)

/-! ### `retrieve_context` (retriever.py lines 10-31)

The two adapter calls are awaited together (`asyncio.gather`) and their result
lists are the inputs of the merge; the merge itself is
`all_chunks = vortex_results + notion_results`.  The element type is left
polymorphic as the Python lists are untyped. -/

def retrieve_context (vortexResults notionResults : List α) : List α :=
  vortexResults ++ notionResults

/-! ### `build_system_prompt` (prompts.py) -/

/-- The part of `THAI_LEGAL_SYSTEM_PROMPT` before the `{context}` placeholder. -/
def THAI_PROMPT_BEFORE_CONTEXT : String :=
  "You are a Thai legal expert assistant for thailawonline.com. You provide accurate, well-cited answers about Thai law based on retrieved legal documents.\n\n**Instructions:**\n- Answer based primarily on the retrieved legal documents provided below.\n- Cite specific law sections (e.g., \"Civil and Commercial Code Section 420\") and Supreme Court case numbers (e.g., \"Supreme Court Decision No. 1234/2565\").\n- If the retrieved documents do not contain sufficient information to answer, clearly state this and provide general guidance.\n- Respond in the same language the user uses (Thai or English).\n- Be precise and professional. Avoid speculation beyond what the legal texts support.\n- When multiple legal provisions apply, explain how they interact.\n\n**Retrieved Legal Documents:**\n"

/-- The template literal `THAI_LEGAL_SYSTEM_PROMPT` of prompts.py (backslash line
continuations joined). -/
def THAI_LEGAL_SYSTEM_PROMPT : String :=
  "You are a Thai legal expert assistant for thailawonline.com. You provide accurate, well-cited answers about Thai law based on retrieved legal documents.\n\n**Instructions:**\n- Answer based primarily on the retrieved legal documents provided below.\n- Cite specific law sections (e.g., \"Civil and Commercial Code Section 420\") and Supreme Court case numbers (e.g., \"Supreme Court Decision No. 1234/2565\").\n- If the retrieved documents do not contain sufficient information to answer, clearly state this and provide general guidance.\n- Respond in the same language the user uses (Thai or English).\n- Be precise and professional. Avoid speculation beyond what the legal texts support.\n- When multiple legal provisions apply, explain how they interact.\n\n**Retrieved Legal Documents:**\n{context}\n"

/-- The fallback literal `NO_CONTEXT_SYSTEM_PROMPT` of prompts.py. -/
def NO_CONTEXT_SYSTEM_PROMPT : String :=
  "You are a Thai legal expert assistant for thailawonline.com. You provide accurate answers about Thai law.\n\n**Instructions:**\n- Answer questions about Thai law to the best of your knowledge.\n- Cite specific law sections and court case numbers when possible.\n- Respond in the same language the user uses (Thai or English).\n- Be precise and professional.\n- Clearly indicate when you are providing general guidance rather than citing specific provisions.\n\nNote: No specific legal documents were retrieved for this query. Answer based on your general knowledge of Thai law.\n"

/-- A context-chunk dict as consumed by prompts.py and main.py via `.get`:
each of the relevant keys may be absent. -/
structure ChunkDict where
  content : Option String
  source : Option String
deriving DecidableEq

/-- One element of `context_parts`:
`f"[Document \x7bi\x7d] (Source: \x7bsource\x7d)\n\x7bcontent\x7d"` with the
`.get` defaults of prompts.py lines 47-49. -/
def contextPart (i : Nat) (chunk : ChunkDict) : String :=
  "[Document " ++ toString i ++ "] (Source: " ++ chunk.source.getD "Unknown" ++ ")\n"
    ++ chunk.content.getD ""

/-- `context_parts` built by `enumerate(context_chunks, 1)` (1-based numbering). -/
def contextParts (chunks : List ChunkDict) : List String :=
  chunks.enum.map fun p => contextPart (p.1 + 1) p.2

/-- `build_system_prompt` (prompts.py lines 33-52).  `.format(context=...)`
instantiates the single `{context}` placeholder of the template, i.e. yields
prefix ++ context ++ suffix; the lemma `thai_template_split` below records that
this decomposition is exactly the source literal. -/
def build_system_prompt (chunks : List ChunkDict) : String :=
  if chunks.isEmpty then
    NO_CONTEXT_SYSTEM_PROMPT
  else
    THAI_PROMPT_BEFORE_CONTEXT
      ++ String.intercalate "\n\n---\n\n" (contextParts chunks) ++ "\n"

/-! ### `validate_api_key` (wordpress/auth.py lines 8-23)

`WP_API_KEY` and the request header value are the parameters; a missing
`X-API-Key` header is `none`.  The result is `some 401` when the function raises
`HTTPException(status_code=401)` and `none` when it returns (no state is touched
on either path).  Note `not api_key` is Python truthiness: an empty-string
header counts as missing. -/

def validate_api_key (wpApiKey : String) (headerApiKey : Option String) : Option Nat :=
  if wpApiKey = "" then none
  else
    match headerApiKey with
    | none => some 401
    | some k => if k = "" ∨ k ≠ wpApiKey then some 401 else none

/-! ### `wordpress_chat` (main.py lines 72-134) and `ChatRequest` (wordpress/models.py) -/

/-- Python `s[:n]`: the first `n` code points. -/
def pySlice (s : String) (n : Nat) : String :=
  String.mk (s.data.take n)

/-- Python `s.strip()`: drop leading and trailing whitespace. -/
def pyStrip (s : String) : String :=
  String.mk (((s.data.dropWhile Char.isWhitespace).reverse.dropWhile
    Char.isWhitespace).reverse)

/-- The `sources` list comprehension of main.py lines 114-120: one
`SourceCitation(source=chunk.get("source", "Unknown"), excerpt=chunk.get("content", "")[:200])`
per retrieved chunk, in order. -/
structure SourceCitation where
  source : String
  excerpt : String
deriving DecidableEq

def build_sources (chunks : List ChunkDict) : List SourceCitation :=
  chunks.map fun c => ⟨c.source.getD "Unknown", pySlice (c.content.getD "") 200⟩

/-- Pydantic validation of `ChatRequest` (wordpress/models.py lines 6-14):
`message` has `min_length=1, max_length=5000`; `session_id` has `max_length=200`.
A body failing it never reaches the handler (FastAPI answers 422). -/
def chatRequestValid (message sessionId : String) : Bool :=
  1 ≤ message.length && message.length ≤ 5000 && sessionId.length ≤ 200

/-- The externally visible side effects of the handler, in program order. -/
inductive ChatEffect where
  | createConversation (sessionId : String)
  | addUserMessage (sessionId message : String)
  | retrieveContextCall (query : String)
  | runCouncilCall (query : String)
  | addAssistantMessage (sessionId : String)
deriving DecidableEq

structure ChatResponse where
  answer : String
  sources : List SourceCitation
  session_id : String
deriving DecidableEq

/-- The `/api/chat` handler body (main.py lines 72-134).  External collaborators
are parameters: the configured `WP_API_KEY` and request header (auth), whether
the session's conversation already exists (storage), the fresh `uuid4` value,
the merged context chunks the retriever would return, and the chairman answer
the council would synthesize.  The returned effect list records every
storage/retrieval/council interaction in the order the code performs them. -/
def wordpress_chat (wpApiKey : String) (headerApiKey : Option String)
    (message sessionId : String) (conversationExists : Bool) (freshUuid : String)
    (contextChunks : List ChunkDict) (councilAnswer : String) :
    Except Nat ChatResponse × List ChatEffect :=
  match validate_api_key wpApiKey headerApiKey with
  | some code => (.error code, [])
  | none =>
    let user_message := pyStrip message
    if user_message = "" then
      (.error 400, [])
    else
      let sid := if sessionId = "" then freshUuid else sessionId
      let createEffects :=
        if conversationExists then [] else [ChatEffect.createConversation sid]
      (.ok ⟨councilAnswer, build_sources contextChunks, sid⟩,
        createEffects ++
          [ChatEffect.addUserMessage sid user_message,
           ChatEffect.retrieveContextCall user_message,
           ChatEffect.runCouncilCall user_message,
           ChatEffect.addAssistantMessage sid])

/-- The `/api/chat` endpoint: pydantic request validation, then the handler. -/
def chat_endpoint (wpApiKey : String) (headerApiKey : Option String)
    (message sessionId : String) (conversationExists : Bool) (freshUuid : String)
    (contextChunks : List ChunkDict) (councilAnswer : String) :
    Except Nat ChatResponse × List ChatEffect :=
  if chatRequestValid message sessionId then
    wordpress_chat wpApiKey headerApiKey message sessionId conversationExists
      freshUuid contextChunks councilAnswer
  else
    (.error 422, [])

/-! ### Rank aggregation (backend/council.py, modelled from the spec) -/

/-- `COUNCIL_MODELS` (config.py lines 13-18): the static worker-model roster. -/
def COUNCIL_MODELS : List String :=
  ["openai/gpt-5.1",
   "google/gemini-3-pro-preview",
   "anthropic/claude-sonnet-4.5",
   "x-ai/grok-4"]

/-- A parsed Stage-2 ranking: the judge model and its label order, best first. -/
structure Stage2Ranking where
  judge : String
  ranking : List String
deriving DecidableEq

structure AggregateEntry where
  model : String
  score : ℚ
deriving DecidableEq

/-- Modelled from the spec: the inverse-position points one Stage2Ranking gives
to model `m` — `backend/council.py` is not among the available sources, so the
Borda rule of spec §4.6 is transcribed: the label at 1-indexed position `k` of
`N` ranked labels contributes `N - k + 1` points (0-indexed: `N - idx`) to the
de-anonymized model at that position. -/
def rankingPoints (labelToModel : List (String × String)) (r : Stage2Ranking)
    (m : String) : ℚ :=
  (r.ranking.enum.map fun p =>
    if labelToModel.lookup p.2 = some m then ((r.ranking.length - p.1 : Nat) : ℚ)
    else 0).sum

/-- Modelled from the spec: a model's total points summed over all rankings. -/
def bordaPoints (stage2 : List Stage2Ranking) (labelToModel : List (String × String))
    (m : String) : ℚ :=
  (stage2.map fun r => rankingPoints labelToModel r m).sum

/-- Position in the static roster, the spec's tie-break key. -/
def rosterIndex (m : String) : Nat :=
  COUNCIL_MODELS.indexOf m

/-- The output order of aggregation: total points descending, ties by roster
position (spec §4.6: "sort descending by total; ties broken by model's roster
order"). -/
def aggLex (a b : AggregateEntry) : Prop :=
  b.score < a.score ∨ (a.score = b.score ∧ rosterIndex a.model ≤ rosterIndex b.model)

instance : DecidableRel aggLex := fun a b => by
  unfold aggLex; infer_instance

instance : IsTotal AggregateEntry aggLex where
  total a b := by
    rcases lt_trichotomy a.score b.score with h | h | h
    · exact Or.inr (Or.inl h)
    · rcases Nat.le_total (rosterIndex a.model) (rosterIndex b.model) with hi | hi
      · exact Or.inl (Or.inr ⟨h, hi⟩)
      · exact Or.inr (Or.inr ⟨h.symm, hi⟩)
    · exact Or.inl (Or.inl h)

instance : IsTrans AggregateEntry aggLex where
  trans a b c hab hbc := by
    rcases hab with h1 | ⟨h1, i1⟩
    · rcases hbc with h2 | ⟨h2, _⟩
      · exact Or.inl (h2.trans h1)
      · exact Or.inl (h2 ▸ h1)
    · rcases hbc with h2 | ⟨h2, i2⟩
      · exact Or.inl (h1 ▸ h2)
      · exact Or.inr ⟨h1.trans h2, i1.trans i2⟩

/-- Modelled from the spec: `calculate_aggregate_rankings(stage2, label_to_model)`
of `backend/council.py`, which is imported by `backend/main.py` but absent from
the available sources.  Per spec §4.5/§4.6 the anonymization map lists the
non-error Stage-1 models in roster order; aggregation produces one scored entry
per model of that map and sorts by points descending with the deterministic
roster tie-break. -/
def calculate_aggregate_rankings (stage2 : List Stage2Ranking)
    (labelToModel : List (String × String)) : List AggregateEntry :=
  (((labelToModel.map Prod.snd).map fun m =>
    AggregateEntry.mk m (bordaPoints stage2 labelToModel m)).insertionSort aggLex)

/-! ## Shared concrete inputs -/

/-- The single-record corpus of the spec's local-corpus test:
`{"content": "alpha beta", "source": "Doc1"}`. -/
def claimCorpusFile : JsonFile :=
  ⟨"doc1", .ok (.arr [.obj [("content", .str "alpha beta"), ("source", .str "Doc1")]])⟩

/-- A well-formed JSON file whose top-level array holds a non-dict record. -/
def shapeBadFile : JsonFile :=
  ⟨"bad", .ok (.arr [.num 42])⟩

/-- `VORTEX_MAX_CHUNKS` default (config.py line 31), the only budget-like
constant in the retrieval configuration. -/
def VORTEX_MAX_CHUNKS : Nat := 10

/-! ## C10 -/

/-- C10: `validate_api_key` raises 401 exactly when a non-empty `WP_API_KEY` is
configured and the `X-API-Key` header is missing or differs from it; with no
configured key every request passes; and the function only ever returns
(no state change) or raises 401. -/
theorem validate_api_key_spec (wpApiKey : String) (headerApiKey : Option String) :
    (validate_api_key wpApiKey headerApiKey = some 401 ↔
      wpApiKey ≠ "" ∧
        (headerApiKey = none ∨ ∃ k, headerApiKey = some k ∧ k ≠ wpApiKey))
    ∧ (wpApiKey = "" → validate_api_key wpApiKey headerApiKey = none)
    ∧ (validate_api_key wpApiKey headerApiKey = some 401 ∨
        validate_api_key wpApiKey headerApiKey = none) := by
  unfold validate_api_key
  by_cases hw : wpApiKey = ""
  · simp [hw]
  · cases headerApiKey with
    | none => simp [hw]
    | some k =>
      by_cases hk : k = ""
      · subst hk
        have hne : "" ≠ wpApiKey := fun he => hw he.symm
        simp [hw, hne]
      · by_cases hkw : k = wpApiKey
        · subst hkw
          simp [hk]
        · simp [hw, hk, hkw]

/-- C10 witness: a configured key with a wrong header raises 401; no configured
key passes a header-less request. -/
theorem validate_api_key_spec_witness :
    validate_api_key "secret" (some "wrong") = some 401
    ∧ validate_api_key "" none = none :=
  ⟨(validate_api_key_spec "secret" (some "wrong")).1.mpr
      ⟨by decide, Or.inr ⟨"wrong", rfl, by decide⟩⟩,
    (validate_api_key_spec "" none).2.1 rfl⟩

/-! ## C3 -/

/-- C3: `retrieve_context` returns exactly the primary results followed by the
supplementary results: lengths add, the first block is the vortex list, the
remainder is the notion list, per-element multiplicities add (no deduplication,
no re-scoring), and — shown on a concrete pair — a supplementary chunk with a
higher score than every primary chunk still comes after all primary chunks. -/
theorem retrieve_context_merge_order {α : Type} [DecidableEq α] :
    (∀ vortexResults notionResults : List α,
      (retrieve_context vortexResults notionResults).length
          = vortexResults.length + notionResults.length
      ∧ (retrieve_context vortexResults notionResults).take vortexResults.length
          = vortexResults
      ∧ (retrieve_context vortexResults notionResults).drop vortexResults.length
          = notionResults
      ∧ ∀ a : α, (retrieve_context vortexResults notionResults).count a
          = vortexResults.count a + notionResults.count a)
    ∧ retrieve_context [ScoredChunk.mk "primary" .null 1] [ScoredChunk.mk "supp" .null 100]
        = [ScoredChunk.mk "primary" .null 1, ScoredChunk.mk "supp" .null 100] := by
  refine ⟨fun v n => ⟨?_, ?_, ?_, fun a => ?_⟩, rfl⟩
  · simp [retrieve_context]
  · exact List.take_left v n
  · exact List.drop_left v n
  · simp [retrieve_context]

/-! ## C4 (corrected) -/

/-- C4 counterexample: the claim says the Prompt Composer caps the number of
chunks embedded in the grounding text to its budget; but for eleven chunks the
composer builds eleven `[Document i]` blocks, exceeding the only configured
retrieval budget (`VORTEX_MAX_CHUNKS = 10`) — no cap exists in the composer. -/
theorem build_system_prompt_no_cap_cex :
    (contextParts (List.replicate 11 (ChunkDict.mk (some "c") (some "s")))).length = 11
    ∧ ¬ ((contextParts (List.replicate 11 (ChunkDict.mk (some "c") (some "s")))).length
          ≤ VORTEX_MAX_CHUNKS) := by
  constructor
  · simp [contextParts]
  · simp [contextParts, VORTEX_MAX_CHUNKS]

/-- C4 (amended): `retrieve_context` performs no truncation of the concatenation,
and the Prompt Composer performs no truncation either — it embeds one block per
merged chunk; the only count cap is each adapter's own `max_results` truncation
(shown for the local-corpus adapter). -/
theorem truncation_location (query : String) (files : List JsonFile)
    (maxResults : Nat) (out : List ScoredChunk)
    (h : search_json_files query files maxResults = .ok out) :
    (∀ (α : Type) (v n : List α), (retrieve_context v n).length = v.length + n.length)
    ∧ (∀ chunks : List ChunkDict, (contextParts chunks).length = chunks.length)
    ∧ out.length ≤ maxResults := by
  refine ⟨fun α v n => by simp [retrieve_context], fun chunks => by simp [contextParts], ?_⟩
  unfold search_json_files at h
  by_cases hq : tokenSet query = ∅
  · rw [if_pos hq] at h
    cases h
    simp
  · rw [if_neg hq] at h
    cases hc : collectScored (tokenSet query) files with
    | error e => rw [hc] at h; exact absurd h (by simp [Bind.bind, Except.bind])
    | ok scored =>
      rw [hc] at h
      simp only [Bind.bind, Except.bind, Except.ok.injEq] at h
      subst h
      exact le_trans (List.length_take_le _ _) (le_refl _)

/-- C4 witness: the adapter-cap conjunct applied to the concrete one-record
corpus with `max_results = 10`. -/
theorem truncation_location_witness :
    search_json_files "alpha gamma" [claimCorpusFile] 10
        = .ok [ScoredChunk.mk "alpha beta" (.str "Doc1") (1 / 2)]
    ∧ [ScoredChunk.mk "alpha beta" (.str "Doc1") ((1 : ℚ) / 2)].length ≤ 10 :=
  ⟨rfl, (truncation_location "alpha gamma" [claimCorpusFile] 10 _ rfl).2.2⟩

/-! ## C7 (corrected) -/

/-- C7 counterexample: for the literally empty message the endpoint's pydantic
layer (`ChatRequest.message` has `min_length=1`) rejects the request with 422,
not with the claimed explicit 400 — though still before any retrieval, council
stage, or state mutation. -/
theorem chat_endpoint_empty_message_cex :
    chat_endpoint "" none "" "" false "uuid-1" [] "answer" = (.error 422, [])
    ∧ chat_endpoint "" none "" "" false "uuid-1" [] "answer" ≠ (.error 400, []) := by
  exact ⟨rfl, by decide⟩

/-- C7 (amended): a request whose message strips to empty is rejected before any
retrieval, any council stage, and any conversation-state mutation: a
pydantic-valid body (necessarily whitespace-only, since `min_length=1`) passing
the API-key check is rejected by the handler with an explicit 400 and an empty
effect trace; a literally empty message already fails `ChatRequest` validation
and is rejected with 422, likewise with an empty effect trace. -/
theorem chat_endpoint_rejects_blank (wpApiKey : String) (headerApiKey : Option String)
    (message sessionId : String) (conversationExists : Bool) (freshUuid : String)
    (contextChunks : List ChunkDict) (councilAnswer : String) :
    (chatRequestValid message sessionId = true →
      validate_api_key wpApiKey headerApiKey = none →
      pyStrip message = "" →
      chat_endpoint wpApiKey headerApiKey message sessionId conversationExists
        freshUuid contextChunks councilAnswer = (.error 400, []))
    ∧ (message = "" →
      chat_endpoint wpApiKey headerApiKey message sessionId conversationExists
        freshUuid contextChunks councilAnswer = (.error 422, [])) := by
  constructor
  · intro hv ha hs
    unfold chat_endpoint wordpress_chat
    simp [hv, ha, hs]
  · intro hm
    subst hm
    have hinvalid : chatRequestValid "" sessionId = false := by
      simp [chatRequestValid]
    unfold chat_endpoint
    simp [hinvalid]

/-- C7 witness: the whitespace-only message `" "` with no API key configured. -/
theorem chat_endpoint_rejects_blank_witness :
    chatRequestValid " " "" = true ∧ validate_api_key "" none = none
    ∧ pyStrip " " = ""
    ∧ chat_endpoint "" none " " "" false "uuid-1" [] "answer" = (.error 400, []) :=
  ⟨rfl, rfl, rfl,
    (chat_endpoint_rejects_blank "" none " " "" false "uuid-1" [] "answer").1 rfl rfl rfl⟩

/-! ## C9 -/

/-- C9: a query whose lowercased text has no word tokens makes the search return
the empty list at once — for every file list, malformed files included — and a
chunk can only appear in a returned result when the query token set is
non-empty, so the overlap-ratio divisor is never zero where a score exists. -/
theorem search_json_files_empty_query_guard :
    (∀ query files maxResults, tokenSet query = ∅ →
      search_json_files query files maxResults = .ok [])
    ∧ (∀ query files maxResults out,
        search_json_files query files maxResults = .ok out →
        ∀ c, c ∈ out → 0 < (tokenSet query).card) := by
  constructor
  · intro q files m h
    unfold search_json_files
    rw [if_pos h]
  · intro q files m out h c hc
    by_cases hq : tokenSet q = ∅
    · unfold search_json_files at h
      rw [if_pos hq] at h
      cases h
      simp at hc
    · exact Finset.card_pos.mpr (Finset.nonempty_iff_ne_empty.mpr hq)

/-- C9 witness: the token-free query `"??"` over a corpus starting with a
shape-malformed file. -/
theorem search_json_files_empty_query_guard_witness :
    tokenSet "??" = ∅
    ∧ search_json_files "??" [shapeBadFile, claimCorpusFile] 7 = .ok [] :=
  ⟨rfl, search_json_files_empty_query_guard.1 "??" [shapeBadFile, claimCorpusFile] 7 rfl⟩

/-! ## C5 -/

/-- C5: `build_system_prompt` is a pure function of the chunk list: the empty
list yields exactly the fallback prompt (which discloses that no documents were
retrieved); a non-empty list yields the fixed template around the chunk blocks
joined by the uniform separator, with one block per chunk, the `i`-th block
numbered `i+1` and attributing the chunk's source label; equal inputs give
equal outputs.  The template decomposition used is exactly the source literal
(third conjunct). -/
theorem build_system_prompt_spec :
    build_system_prompt [] = NO_CONTEXT_SYSTEM_PROMPT
    ∧ (∃ before after, NO_CONTEXT_SYSTEM_PROMPT
        = before ++ "No specific legal documents were retrieved" ++ after)
    ∧ THAI_LEGAL_SYSTEM_PROMPT = THAI_PROMPT_BEFORE_CONTEXT ++ "{context}" ++ "\n"
    ∧ (∀ chunks : List ChunkDict, chunks ≠ [] →
        build_system_prompt chunks
          = THAI_PROMPT_BEFORE_CONTEXT
              ++ String.intercalate "\n\n---\n\n" (contextParts chunks) ++ "\n")
    ∧ (∀ chunks : List ChunkDict, (contextParts chunks).length = chunks.length)
    ∧ (∀ (chunks : List ChunkDict) (i : Nat) (c : ChunkDict), chunks[i]? = some c →
        (contextParts chunks)[i]?
          = some ("[Document " ++ toString (i + 1) ++ "] (Source: "
              ++ c.source.getD "Unknown" ++ ")\n" ++ c.content.getD ""))
    ∧ (∀ c₁ c₂ : List ChunkDict, c₁ = c₂ → build_system_prompt c₁ = build_system_prompt c₂) := by
  refine ⟨rfl, ?_, ?_, ?_, ?_, ?_, ?_⟩
  · exact ⟨"You are a Thai legal expert assistant for thailawonline.com. You provide accurate answers about Thai law.\n\n**Instructions:**\n- Answer questions about Thai law to the best of your knowledge.\n- Cite specific law sections and court case numbers when possible.\n- Respond in the same language the user uses (Thai or English).\n- Be precise and professional.\n- Clearly indicate when you are providing general guidance rather than citing specific provisions.\n\nNote: ",
      " for this query. Answer based on your general knowledge of Thai law.\n",
      by set_option maxRecDepth 8000 in rfl⟩
  · set_option maxRecDepth 8000 in rfl
  · intro chunks h
    unfold build_system_prompt
    rw [if_neg (by simpa using h)]
  · intro chunks
    simp [contextParts]
  · intro chunks i c hc
    simp [contextParts, List.getElem?_map, List.getElem?_enum, hc, contextPart]
  · intro c₁ c₂ h
    rw [h]

/-- C5 witness: the non-empty-template conjunct applied to a concrete
one-chunk list. -/
theorem build_system_prompt_spec_witness :
    ([ChunkDict.mk (some "Section 420 text") (some "Civil Code")] : List ChunkDict) ≠ []
    ∧ build_system_prompt [ChunkDict.mk (some "Section 420 text") (some "Civil Code")]
      = THAI_PROMPT_BEFORE_CONTEXT
          ++ String.intercalate "\n\n---\n\n"
              (contextParts [ChunkDict.mk (some "Section 420 text") (some "Civil Code")])
          ++ "\n" :=
  ⟨List.cons_ne_nil _ _,
    build_system_prompt_spec.2.2.2.1
      [ChunkDict.mk (some "Section 420 text") (some "Civil Code")]
      (List.cons_ne_nil _ _)⟩

/-! ## C8 -/

/-- C8: the citation list of a successful chat response is the chunk-wise image
of the merged context: same length, the `i`-th citation's source is the `i`-th
chunk's source label (`"Unknown"` when absent) and its excerpt is the first 200
code points of the chunk's content (all of it when shorter); and every
successful endpoint outcome carries exactly `build_sources` of its chunks. -/
theorem chat_citations_spec :
    (∀ chunks : List ChunkDict, (build_sources chunks).length = chunks.length)
    ∧ (∀ (chunks : List ChunkDict) (i : Nat) (c : ChunkDict), chunks[i]? = some c →
        (build_sources chunks)[i]?
          = some ⟨c.source.getD "Unknown", pySlice (c.content.getD "") 200⟩)
    ∧ (∀ (s : String), s.length ≤ 200 → pySlice s 200 = s)
    ∧ (∀ chunks : List ChunkDict, ∀ cit ∈ build_sources chunks, cit.excerpt.length ≤ 200)
    ∧ (∀ wpApiKey headerApiKey message sessionId conversationExists freshUuid
        contextChunks councilAnswer resp effects,
        chat_endpoint wpApiKey headerApiKey message sessionId conversationExists
            freshUuid contextChunks councilAnswer = (.ok resp, effects) →
        resp.sources = build_sources contextChunks) := by
  refine ⟨?_, ?_, ?_, ?_, ?_⟩
  · intro chunks
    simp [build_sources]
  · intro chunks i c hc
    simp [build_sources, List.getElem?_map, hc]
  · intro s hs
    unfold pySlice
    rw [List.take_of_length_le hs]
  · intro chunks cit hcit
    rcases List.mem_map.mp hcit with ⟨c, _, heq⟩
    subst heq
    exact List.length_take_le _ _
  · intro wpApiKey headerApiKey message sessionId conversationExists freshUuid
      contextChunks councilAnswer resp effects h
    unfold chat_endpoint wordpress_chat at h
    by_cases hv : chatRequestValid message sessionId = true
    · rw [if_pos hv] at h
      cases hval : validate_api_key wpApiKey headerApiKey with
      | some code => rw [hval] at h; simp at h
      | none =>
        rw [hval] at h
        by_cases hs : pyStrip message = ""
        · simp [hs] at h
        · simp only [hs, if_false] at h
          injection h with h1 h2
          injection h1 with h3
          rw [← h3]
    · rw [if_neg hv] at h
      simp at h

/-- C8 witness: the index-wise conjunct at position 1 of a two-chunk list with
an absent source. -/
theorem chat_citations_spec_witness :
    ([ChunkDict.mk (some "alpha") (some "Doc1"), ChunkDict.mk (some "beta") none]
        : List ChunkDict)[1]? = some (ChunkDict.mk (some "beta") none)
    ∧ (build_sources
        [ChunkDict.mk (some "alpha") (some "Doc1"), ChunkDict.mk (some "beta") none])[1]?
      = some ⟨"Unknown", pySlice "beta" 200⟩ :=
  ⟨rfl, chat_citations_spec.2.1
    [ChunkDict.mk (some "alpha") (some "Doc1"), ChunkDict.mk (some "beta") none]
    1 (ChunkDict.mk (some "beta") none) rfl⟩

/-! ## Helper lemmas about the local-corpus search -/

/-- Score soundness of a scored chunk: positive overlap and the ratio score. -/
def WellScored (qT : Finset String) (c : ScoredChunk) : Prop :=
  0 < (qT ∩ tokenSet c.content).card ∧
    c.score = (((qT ∩ tokenSet c.content).card : ℚ) / ((qT.card : ℚ)))

theorem processChunk_ok_some {qT : Finset String} {stem : String} {chunk : Json}
    {c : ScoredChunk} (h : processChunk qT stem chunk = .ok (some c)) :
    WellScored qT c := by
  unfold processChunk at h
  split at h
  · simp only [] at h
    split at h
    · exact absurd h (by simp)
    · split at h
      · split at h
        · injection h with h1
          injection h1 with h2
          subst h2
          exact ⟨by assumption, rfl⟩
        · exact absurd h (by simp)
      · exact absurd h (by simp)
  · exact absurd h (by simp)

theorem processChunks_mem {qT : Finset String} {stem : String} :
    ∀ {chunks : List Json} {out : List ScoredChunk},
      processChunks qT stem chunks = .ok out → ∀ {c}, c ∈ out → WellScored qT c := by
  intro chunks
  induction chunks with
  | nil =>
    intro out h c hc
    injection h with h1
    subst h1
    simp at hc
  | cons j js ih =>
    intro out h c hc
    unfold processChunks at h
    cases hj : processChunk qT stem j with
    | error e => rw [hj] at h; exact absurd h (by simp [Bind.bind, Except.bind])
    | ok hd =>
      rw [hj] at h
      cases htl : processChunks qT stem js with
      | error e => rw [htl] at h; exact absurd h (by simp [Bind.bind, Except.bind])
      | ok tl =>
        rw [htl] at h
        cases hd with
        | some sc =>
          have : out = sc :: tl := by
            have h' : Except.ok (ε := PyErr) (sc :: tl) = Except.ok out := h
            injection h' with h1
            exact h1.symm
          subst this
          rcases List.mem_cons.mp hc with hceq | hcin
          · subst hceq
            exact processChunk_ok_some hj
          · exact ih htl hcin
        | none =>
          have : out = tl := by
            have h' : Except.ok (ε := PyErr) tl = Except.ok out := h
            injection h' with h1
            exact h1.symm
          subst this
          exact ih htl hc

theorem processFile_mem {qT : Finset String} {f : JsonFile} {out : List ScoredChunk}
    (h : processFile qT f = .ok out) {c : ScoredChunk} (hc : c ∈ out) :
    WellScored qT c := by
  unfold processFile at h
  split at h
  · injection h with h1; subst h1; simp at hc
  · injection h with h1; subst h1; simp at hc
  · exact processChunks_mem h hc

theorem collectScored_cons_ok {qT : Finset String} {f : JsonFile} {files : List JsonFile}
    {cs rest : List ScoredChunk} (h1 : processFile qT f = .ok cs)
    (h2 : collectScored qT files = .ok rest) :
    collectScored qT (f :: files) = .ok (cs ++ rest) := by
  unfold collectScored
  rw [h1, h2]
  rfl

theorem collectScored_cons_err1 {qT : Finset String} {f : JsonFile} {files : List JsonFile}
    {e : PyErr} (h1 : processFile qT f = .error e) :
    collectScored qT (f :: files) = .error e := by
  unfold collectScored
  rw [h1]
  rfl

theorem collectScored_cons_err2 {qT : Finset String} {f : JsonFile} {files : List JsonFile}
    {cs : List ScoredChunk} {e : PyErr} (h1 : processFile qT f = .ok cs)
    (h2 : collectScored qT files = .error e) :
    collectScored qT (f :: files) = .error e := by
  unfold collectScored
  rw [h1, h2]
  rfl

theorem collectScored_mem {qT : Finset String} :
    ∀ {files : List JsonFile} {out : List ScoredChunk},
      collectScored qT files = .ok out → ∀ {c}, c ∈ out → WellScored qT c := by
  intro files
  induction files with
  | nil =>
    intro out h c hc
    injection h with h1
    subst h1
    simp at hc
  | cons f fs ih =>
    intro out h c hc
    cases hf : processFile qT f with
    | error e => rw [collectScored_cons_err1 hf] at h; exact absurd h (by simp)
    | ok cs =>
      cases hrest : collectScored qT fs with
      | error e => rw [collectScored_cons_err2 hf hrest] at h; exact absurd h (by simp)
      | ok rest =>
        rw [collectScored_cons_ok hf hrest] at h
        injection h with h1
        subst h1
        rcases List.mem_append.mp hc with hcl | hcr
        · exact processFile_mem hf hcl
        · exact ih hrest hcr

/-! ## C2 -/

/-- C2: the local-corpus search scores every kept record by
`|query tokens ∩ content tokens| / |query tokens|` with positive overlap
(records without overlap are discarded), returns them sorted by score
descending — stably: the position-tagged sort is ordered by the lexicographic
(score descending, arrival index ascending) relation — truncated to
`max_results`; the output is a take of a score-sorted permutation of the
arrival-order scored list; and on the spec's one-record corpus the query
`"alpha gamma"` yields the record with score `1/2` while `"zzz"` yields
nothing. -/
theorem search_json_files_spec :
    (∀ query files maxResults out,
      search_json_files query files maxResults = .ok out →
        (∀ c ∈ out, 0 < ((tokenSet query) ∩ tokenSet c.content).card
          ∧ c.score = ((((tokenSet query) ∩ tokenSet c.content).card : ℚ)
              / (((tokenSet query).card : ℚ))))
        ∧ out.Pairwise (fun a b => b.score ≤ a.score)
        ∧ out.length ≤ maxResults
        ∧ (∀ scored, collectScored (tokenSet query) files = .ok scored →
            tokenSet query ≠ ∅ →
              ∃ l, List.Perm l scored
                ∧ l.Pairwise (fun a b : ScoredChunk => b.score ≤ a.score)
                ∧ out = l.take maxResults))
    ∧ (∀ scored : List ScoredChunk, (sortScored scored).Pairwise chunkLex)
    ∧ search_json_files "alpha gamma" [claimCorpusFile] 10
        = .ok [ScoredChunk.mk "alpha beta" (.str "Doc1") (1 / 2)]
    ∧ search_json_files "zzz" [claimCorpusFile] 10 = .ok [] := by
  have hsorted : ∀ scored : List ScoredChunk, (sortScored scored).Pairwise chunkLex :=
    fun scored => List.sorted_insertionSort chunkLex scored.enum
  have hmapSorted : ∀ scored : List ScoredChunk,
      ((sortScored scored).map Prod.snd).Pairwise
        (fun a b : ScoredChunk => b.score ≤ a.score) := by
    intro scored
    refine (List.pairwise_map).mpr ((hsorted scored).imp ?_)
    intro a b hab
    rcases hab with hlt | ⟨heq, _⟩
    · exact le_of_lt hlt
    · exact le_of_eq heq.symm
  have hpermSnd : ∀ scored : List ScoredChunk,
      List.Perm ((sortScored scored).map Prod.snd) scored := by
    intro scored
    have h1 := (List.perm_insertionSort chunkLex scored.enum).map Prod.snd
    rwa [List.enum_map_snd] at h1
  refine ⟨?_, hsorted, rfl, rfl⟩
  intro query files maxResults out h
  unfold search_json_files at h
  by_cases hq : tokenSet query = ∅
  · rw [if_pos hq] at h
    injection h with h1
    subst h1
    exact ⟨by simp, by simp, by simp, fun scored _ hne => absurd hq hne⟩
  · rw [if_neg hq] at h
    cases hcol : collectScored (tokenSet query) files with
    | error e =>
      rw [hcol] at h
      exact absurd h (by simp [Bind.bind, Except.bind])
    | ok scored =>
      rw [hcol] at h
      have h1 : Except.ok (ε := PyErr)
          (((sortScored scored).map Prod.snd).take maxResults) = Except.ok out := h
      injection h1 with h2
      subst h2
      refine ⟨?_, ?_, List.length_take_le _ _, ?_⟩
      · intro c hc
        have hc1 : c ∈ (sortScored scored).map Prod.snd :=
          (List.take_sublist _ _).subset hc
        have hc2 : c ∈ scored := (hpermSnd scored).mem_iff.mp hc1
        exact collectScored_mem hcol hc2
      · exact (hmapSorted scored).sublist (List.take_sublist _ _)
      · intro scored' hcol' _
        have hsc : scored' = scored := by
          injection hcol' with h3
          exact h3.symm
        subst hsc
        exact ⟨(sortScored scored').map Prod.snd, hpermSnd scored', hmapSorted scored', rfl⟩

/-- C2 witness: the universal part applied to the spec's concrete corpus and
query, whose search result is computed exactly. -/
theorem search_json_files_spec_witness :
    search_json_files "alpha gamma" [claimCorpusFile] 10
        = .ok [ScoredChunk.mk "alpha beta" (.str "Doc1") (1 / 2)]
    ∧ ([ScoredChunk.mk "alpha beta" (.str "Doc1") ((1 : ℚ) / 2)]
        : List ScoredChunk).Pairwise (fun a b => b.score ≤ a.score)
    ∧ [ScoredChunk.mk "alpha beta" (.str "Doc1") ((1 : ℚ) / 2)].length ≤ 10 :=
  ⟨rfl,
    (search_json_files_spec.1 "alpha gamma" [claimCorpusFile] 10 _ rfl).2.1,
    (search_json_files_spec.1 "alpha gamma" [claimCorpusFile] 10 _ rfl).2.2.1⟩

/-! ## C6 (corrected) -/

/-- C6 counterexample: a corpus whose second file is valid JSON holding a
non-dict record (`[42]`) makes the search raise `AttributeError` to the caller
— the well-formed first record's result is lost, refuting "never raising to
the caller". -/
theorem search_json_files_shape_error_cex :
    search_json_files "alpha" [claimCorpusFile, shapeBadFile] 10
        = .error .attributeError
    ∧ ∀ out, search_json_files "alpha" [claimCorpusFile, shapeBadFile] 10 ≠ .ok out := by
  refine ⟨rfl, fun out hok => ?_⟩
  have h1 : Except.error (α := List ScoredChunk) PyErr.attributeError = Except.ok out :=
    (rfl : search_json_files "alpha" [claimCorpusFile, shapeBadFile] 10
        = .error .attributeError).symm.trans hok
  cases h1

theorem collectScored_skip_load_error {qT : Finset String} {f : JsonFile}
    (hf : f.load = .decodeError ∨ f.load = .osError) :
    ∀ (before after : List JsonFile),
      collectScored qT (before ++ f :: after) = collectScored qT (before ++ after) := by
  have hpf : processFile qT f = .ok [] := by
    rcases hf with h | h <;> unfold processFile <;> rw [h]
  intro before
  induction before with
  | nil =>
    intro after
    simp only [List.nil_append]
    cases hafter : collectScored qT after with
    | error e => rw [collectScored_cons_err2 hpf hafter]
    | ok rest => rw [collectScored_cons_ok hpf hafter, List.nil_append]
  | cons b bs ih =>
    intro after
    simp only [List.cons_append]
    cases hb : processFile qT b with
    | error e => rw [collectScored_cons_err1 hb, collectScored_cons_err1 hb]
    | ok cs =>
      cases hrest : collectScored qT (bs ++ after) with
      | error e =>
        rw [collectScored_cons_err2 hb ((ih after).trans hrest),
          collectScored_cons_err2 hb hrest]
      | ok rest =>
        rw [collectScored_cons_ok hb ((ih after).trans hrest),
          collectScored_cons_ok hb hrest]

/-- C6 (amended): a record that cannot be read or parsed — an I/O error or a
JSON decode error, the two exception classes the source catches — is skipped
and the search result over the remaining files is unchanged; but a
successfully decoded record of unexpected shape raises an uncaught
`AttributeError` to the caller (see the counterexample), so "malformed records
are never fatal" holds only for unreadable/unparsable files. -/
theorem search_json_files_skips_unreadable (query : String) (f : JsonFile)
    (hf : f.load = .decodeError ∨ f.load = .osError)
    (before after : List JsonFile) (maxResults : Nat) :
    search_json_files query (before ++ f :: after) maxResults
      = search_json_files query (before ++ after) maxResults := by
  unfold search_json_files
  by_cases hq : tokenSet query = ∅
  · rw [if_pos hq, if_pos hq]
  · rw [if_neg hq, if_neg hq, collectScored_skip_load_error hf before after]

/-- C6 witness: an unreadable file placed before the spec's one-record corpus
is skipped and the remaining record is still scored and returned. -/
theorem search_json_files_skips_unreadable_witness :
    ((JsonFile.mk "broken" .decodeError).load = .decodeError
      ∨ (JsonFile.mk "broken" .decodeError).load = .osError)
    ∧ search_json_files "alpha gamma"
        ([] ++ JsonFile.mk "broken" .decodeError :: [claimCorpusFile]) 10
      = search_json_files "alpha gamma" ([] ++ [claimCorpusFile]) 10
    ∧ search_json_files "alpha gamma"
        [JsonFile.mk "broken" .decodeError, claimCorpusFile] 10
      = .ok [ScoredChunk.mk "alpha beta" (.str "Doc1") (1 / 2)] :=
  ⟨Or.inl rfl,
    search_json_files_skips_unreadable "alpha gamma" (JsonFile.mk "broken" .decodeError)
      (Or.inl rfl) [] [claimCorpusFile] 10,
    rfl⟩

/-! ## C1 -/

/-- The spec §8 end-to-end tie scenario: two judges rank the two anonymized
responses symmetrically. -/
def specTieStage2 : List Stage2Ranking :=
  [⟨"openai/gpt-5.1", ["Response A", "Response B"]⟩,
   ⟨"google/gemini-3-pro-preview", ["Response B", "Response A"]⟩]

/-- The label map of the spec §8 scenario, labels assigned in roster order. -/
def specTieLabels : List (String × String) :=
  [("Response A", "openai/gpt-5.1"), ("Response B", "google/gemini-3-pro-preview")]

unseal Rat.add in
/-- Computation of the §8 scenario: both models score `2 + 1 = 3` and the tie
is broken by roster order. -/
theorem aggregate_tie_example :
    calculate_aggregate_rankings specTieStage2 specTieLabels
      = [⟨"openai/gpt-5.1", 3⟩, ⟨"google/gemini-3-pro-preview", 3⟩] := by
  decide

/-- C1: aggregation (modelled from the spec, `backend/council.py` being absent
from the sources) yields exactly one entry per model of the label map — the
non-error Stage-1 models — with each entry's score the Borda sum of
`(N - k + 1)` points over all rankings; the output is sorted by score
descending with ties broken by static roster position; and, being a pure
function, re-running it on identical inputs gives the identical result.  On
the spec §8 scenario the 3-3 tie is broken in roster order. -/
theorem calculate_aggregate_rankings_spec (stage2 : List Stage2Ranking)
    (labelToModel : List (String × String))
    (hnodup : (labelToModel.map Prod.snd).Nodup) :
    ((calculate_aggregate_rankings stage2 labelToModel).map AggregateEntry.model).Perm
        (labelToModel.map Prod.snd)
    ∧ (∀ m ∈ labelToModel.map Prod.snd,
        ((calculate_aggregate_rankings stage2 labelToModel).map
            AggregateEntry.model).count m = 1)
    ∧ (∀ e ∈ calculate_aggregate_rankings stage2 labelToModel,
        e.score = bordaPoints stage2 labelToModel e.model)
    ∧ (calculate_aggregate_rankings stage2 labelToModel).Pairwise aggLex
    ∧ calculate_aggregate_rankings stage2 labelToModel
        = calculate_aggregate_rankings stage2 labelToModel
    ∧ calculate_aggregate_rankings specTieStage2 specTieLabels
        = [⟨"openai/gpt-5.1", 3⟩, ⟨"google/gemini-3-pro-preview", 3⟩] := by
  have hperm : List.Perm
      (calculate_aggregate_rankings stage2 labelToModel)
      ((labelToModel.map Prod.snd).map fun m =>
        AggregateEntry.mk m (bordaPoints stage2 labelToModel m)) :=
    List.perm_insertionSort aggLex _
  have hmodels : (((labelToModel.map Prod.snd).map fun m =>
      AggregateEntry.mk m (bordaPoints stage2 labelToModel m)).map
        AggregateEntry.model) = labelToModel.map Prod.snd := by
    rw [List.map_map]
    exact List.map_id _
  refine ⟨?_, ?_, ?_, ?_, rfl, ?_⟩
  · have := hperm.map AggregateEntry.model
    rwa [hmodels] at this
  · intro m hm
    have hp := hperm.map AggregateEntry.model
    rw [hp.count_eq, hmodels]
    exact List.count_eq_one_of_mem hnodup hm
  · intro e he
    have he1 : e ∈ (labelToModel.map Prod.snd).map fun m =>
        AggregateEntry.mk m (bordaPoints stage2 labelToModel m) :=
      hperm.mem_iff.mp he
    rcases List.mem_map.mp he1 with ⟨m, _, heq⟩
    rw [← heq]
  · exact List.sorted_insertionSort aggLex _
  · exact aggregate_tie_example

/-- C1 witness: the theorem applied to the spec §8 tie scenario, with the
label-map injectivity hypothesis discharged by computation. -/
theorem calculate_aggregate_rankings_spec_witness :
    (specTieLabels.map Prod.snd).Nodup
    ∧ (calculate_aggregate_rankings specTieStage2 specTieLabels).Pairwise aggLex :=
  ⟨by decide,
    (calculate_aggregate_rankings_spec specTieStage2 specTieLabels (by decide)).2.2.2.1⟩

end ThaiLaw
